import Mathlib

/-!
Verification development for the maptile-cache repository.

The embedding below translates, function by function, the tile cache-aside
pipeline of the repository:

* `src/cache.ts` — `generateTileKey`, `getCachedTile`, `cacheTileWithType`,
  `isTileCached`, over an explicit object-store oracle;
* the `/tiles` route handler of `src/index.ts` (the current revision, which
  sniffs image formats and writes classified extensions) — parameter
  validation, `Number.parseInt`-based coordinate parsing, provider lookup,
  zoom bound check, cache probe, URL templating with subdomain rotation,
  upstream fetch outcomes and response construction, modelled as a pure
  function of the request, the provider registry, the store contents and
  the fetch outcome.

Byte buffers are `List Nat` (each entry a byte value), strings are Lean
`String`, JavaScript numbers that the code produces via
`Number.parseInt(_, 10)` are `Int` (the route only compares and adds them),
and the JavaScript remainder operator `%` is `Int.tmod` (truncation toward
zero, matching JS semantics on negative operands).

Identifier note: the TypeScript field `cachePrefix` is rendered `cacheNs`
here (the namespace under which keys are rooted); everything else keeps the
source's names.
-/

/-- Model of `detectImageType` (route file, lines 33–57): classify a byte
buffer as "jpg" when it starts with the JPEG signature FF D8 FF, as "png"
when it starts with the 8-byte PNG signature, and default to "png"
otherwise. -/
def detectImageType (buffer : List Nat) : String :=
  if buffer.length ≥ 3
      ∧ buffer.getD 0 0 = 0xFF
      ∧ buffer.getD 1 0 = 0xD8
      ∧ buffer.getD 2 0 = 0xFF then
    "jpg"
  else if buffer.length ≥ 8
      ∧ buffer.getD 0 0 = 0x89
      ∧ buffer.getD 1 0 = 0x50
      ∧ buffer.getD 2 0 = 0x4E
      ∧ buffer.getD 3 0 = 0x47
      ∧ buffer.getD 4 0 = 0x0D
      ∧ buffer.getD 5 0 = 0x0A
      ∧ buffer.getD 6 0 = 0x1A
      ∧ buffer.getD 7 0 = 0x0A then
    "png"
  else
    "png"

/-- The repeated ternary `imageType === "jpg" ? "image/jpeg" : "image/png"`
used by both the cache writer and the route responses. -/
def mimeOf (imageType : String) : String :=
  if imageType = "jpg" then "image/jpeg" else "image/png"

/-- Characters treated as skippable leading whitespace by
`Number.parseInt`: the ECMAScript WhiteSpace production (TAB, VT, FF,
SP, NBSP, ZWNBSP and every Space_Separator code point) together with the
LineTerminator production (LF, CR, LS, PS). -/
def isJsSpace (c : Char) : Bool :=
  let n := c.toNat
  n == 0x9 || n == 0xA || n == 0xB || n == 0xC || n == 0xD || n == 0x20
    || n == 0xA0 || n == 0x1680
    || (decide (0x2000 ≤ n) && decide (n ≤ 0x200A))
    || n == 0x2028 || n == 0x2029 || n == 0x202F || n == 0x205F
    || n == 0x3000 || n == 0xFEFF

/-- Numeric value of a run of decimal digits, most significant first. -/
def digitsVal (ds : List Char) : Nat :=
  ds.foldl (fun a c => a * 10 + (c.toNat - 48)) 0

/-- Model of JavaScript `Number.parseInt(s, 10)`: skip leading whitespace,
accept an optional sign, then read the longest leading run of decimal
digits; yield `none` (NaN) when that run is empty, and otherwise the signed
value of the run, ignoring any trailing characters. -/
def jsParseInt (s : String) : Option Int :=
  let cs := s.data.dropWhile isJsSpace
  let signBody : Bool × List Char :=
    match cs with
    | '-' :: rest => (true, rest)
    | '+' :: rest => (false, rest)
    | _ => (false, cs)
  let ds := signBody.2.takeWhile Char.isDigit
  match ds with
  | [] => none
  | _ :: _ =>
    some (if signBody.1 then -(digitsVal ds : Int) else (digitsVal ds : Int))

/-- Drop the leading run of `'/'` characters. -/
def dropLeadSlashes (l : List Char) : List Char :=
  l.dropWhile (· == '/')

/-- Drop the trailing run of `'/'` characters. -/
def dropTrailSlashes (l : List Char) : List Char :=
  (l.reverse.dropWhile (· == '/')).reverse

/-- Model of `s.replace(/^\/+|\/+$/g, "")` from `generateTileKey`
(`src/cache.ts`, line 39): remove the leading and the trailing run of
slashes. -/
def stripSlashes (s : String) : String :=
  ⟨dropTrailSlashes (dropLeadSlashes s.data)⟩

/-- Model of the `TileCacheKey` interface of `src/cache.ts`: raw string
coordinate tokens plus the map source identifier. -/
structure TileCacheKey where
  x : String
  y : String
  z : String
  mapSource : String
deriving DecidableEq, Repr

/-- The template-literal segment `tiles/${z}/${x}/${y}.${extension}` of
`generateTileKey`. -/
def tilePath (z x y extension : String) : String :=
  "tiles/" ++ z ++ "/" ++ x ++ "/" ++ y ++ "." ++ extension

/-- The JavaScript expression `cachePrefix || mapSource` of
`generateTileKey` (`src/cache.ts`, line 38): the optional `cachePrefix`
argument falls back to the map source identifier when it is `undefined`
or the empty string. -/
def effectiveNs (cacheNs : Option String) (mapSource : String) : String :=
  match cacheNs with
  | some p => if p = "" then mapSource else p
  | none => mapSource

/-- Model of `generateTileKey` (`src/cache.ts`, lines 33–43): normalize
the effective namespace by stripping leading/trailing slashes, then build
`cleanNs/tiles/z/x/y.extension`, omitting the namespace segment when the
normalized namespace is empty. -/
def generateTileKey (key : TileCacheKey) (cacheNs : Option String)
    (extension : String) : String :=
  let cleanNs := stripSlashes (effectiveNs cacheNs key.mapSource)
  if cleanNs = "" then tilePath key.z key.x key.y extension
  else cleanNs ++ "/" ++ tilePath key.z key.x key.y extension

/-- Outcome of probing the underlying S3 store for one key: the object is
there, it is absent, or the `exists`/`arrayBuffer` call threw. -/
inductive StoreReadResult where
  | found (data : List Nat)
  | absent
  | error
deriving DecidableEq, Repr

/-- Model of `getCachedTile` (`src/cache.ts`, lines 57–81): probe the store
under the key derived with the default extension `"png"`; a missing object
yields `null` and — by the surrounding `try`/`catch` — so does any storage
error. -/
def getCachedTile (store : String → StoreReadResult) (key : TileCacheKey)
    (cacheNs : Option String) : Option (List Nat) :=
  match store (generateTileKey key cacheNs "png") with
  | .found data => some data
  | .absent => none
  | .error => none

/-- Model of `isTileCached` (`src/cache.ts`, lines 147–160): existence
check whose `catch` downgrades storage errors to `false`. -/
def isTileCached (store : String → StoreReadResult) (key : TileCacheKey)
    (cacheNs : Option String) : Bool :=
  match store (generateTileKey key cacheNs "png") with
  | .found _ => true
  | .absent => false
  | .error => false

/-- An attempted write to the object store: key, payload and the
content-type attribute attached to it. -/
structure StorageWrite where
  key : String
  data : List Nat
  contentType : String
deriving DecidableEq, Repr

/-- Model of `cacheTileWithType` (`src/cache.ts`, lines 96–117): the write
the function attempts (its `catch` only logs, so the attempt itself is the
observable behaviour). The key uses the classified extension and the
content type matches it. -/
def cacheTileWithType (key : TileCacheKey) (data : List Nat)
    (cacheNs : Option String) (imageType : String) : StorageWrite :=
  { key := generateTileKey key cacheNs imageType
    data := data
    contentType := mimeOf imageType }

/-- Boolean test whether `pat` is a prefix of `l` (character lists). -/
def leadsWith : List Char → List Char → Bool
  | [], _ => true
  | _ :: _, [] => false
  | p :: ps, c :: cs => p == c && leadsWith ps cs

/-- Boolean test whether `pat` occurs as a contiguous run inside `l`. -/
def hasSubList (pat : List Char) : List Char → Bool
  | [] => leadsWith pat []
  | c :: cs => leadsWith pat (c :: cs) || hasSubList pat cs

/-- Model of JavaScript `String.prototype.includes` for plain substring
tests (the route uses it on content-type strings). -/
def jsIncludes (s pat : String) : Bool :=
  hasSubList pat.data s.data

/-- Locate the first occurrence of `pat` and return the list split around
it: the part before the match and the part after it; `none` when `pat`
does not occur. -/
def splitAtMatch (pat : List Char) : List Char → Option (List Char × List Char)
  | [] => if leadsWith pat [] then some ([], []) else none
  | c :: cs =>
    if leadsWith pat (c :: cs) then some ([], (c :: cs).drop pat.length)
    else
      match splitAtMatch pat cs with
      | some (pre, post) => some (c :: pre, post)
      | none => none

/-- ECMAScript GetSubstitution for a plain-string pattern (no capture
groups): expand the dollar escapes of the replacement text. `$$` yields a
dollar sign, `$&` the matched pattern, a dollar followed by a backquote
(code point 96) the part of the subject before the match, a dollar
followed by a single quote (code point 39) the part after it; any other
dollar sequence (including `$1`-style references, which have no captures
to refer to) stays literal. -/
def dollarExpandL (matched before after : List Char) : List Char → List Char
  | [] => []
  | c :: rest =>
    if c = '$' then
      match rest with
      | [] => ['$']
      | d :: rest2 =>
        if d = '$' then '$' :: dollarExpandL matched before after rest2
        else if d = '&' then matched ++ dollarExpandL matched before after rest2
        else if d = Char.ofNat 96 then
          before ++ dollarExpandL matched before after rest2
        else if d = Char.ofNat 39 then
          after ++ dollarExpandL matched before after rest2
        else '$' :: d :: dollarExpandL matched before after rest2
    else c :: dollarExpandL matched before after rest

/-- Model of JavaScript `String.prototype.replace` with a plain-string
pattern (first occurrence only), as used for `{z}`, `{x}`, `{y}`, `{s}`
substitution: the string is returned unchanged when the pattern does not
occur, and the inserted replacement has its dollar escapes expanded per
GetSubstitution (the matched text being the pattern itself). -/
def replaceFirst (s pat repl : String) : String :=
  match splitAtMatch pat.data s.data with
  | none => s
  | some (before, after) =>
    ⟨before ++ dollarExpandL pat.data before after repl.data ++ after⟩

/-- Model of the subdomain index expression
`(xCoord + yCoord + zoom) % mapSource.subdomains.length` (route file,
line 177). JavaScript `%` is the remainder truncated toward zero, i.e.
`Int.tmod`. -/
def subdomainIndex (xCoord yCoord zoom : Int) (n : Nat) : Int :=
  Int.tmod (xCoord + yCoord + zoom) n

/-- Model of JavaScript array indexing `subs[i]` with a possibly signed
index: `none` stands for `undefined`. -/
def jsArrayGet (l : List String) (i : Int) : Option String :=
  if h : 0 ≤ i ∧ i.toNat < l.length then some (l.get ⟨i.toNat, h.2⟩)
  else none

/-- Model of the provider record consumed by the route (the `MapSource`
interface of `src/config.ts`); `cacheNs` renders `cachePrefix`. The
display metadata and the extra upstream headers play no role in the
properties below and are omitted. -/
structure MapSource where
  urlTemplate : String
  maxZoom : Int
  cacheNs : String
  subdomains : List String
deriving DecidableEq, Repr

/-- Model of the URL construction of the route (lines 169–179): substitute
the raw request tokens for `{z}`, `{x}`, `{y}`, then — when the subdomain
list is non-empty — substitute the element selected by `subdomainIndex`
for `{s}`; an out-of-bounds index yields JavaScript `undefined`, which
`String.prototype.replace` stringifies to `"undefined"`. -/
def buildTileUrl (ms : MapSource) (x y z : String)
    (xCoord yCoord zoom : Int) : String :=
  let url := replaceFirst ms.urlTemplate "{z}" z
  let url := replaceFirst url "{x}" x
  let url := replaceFirst url "{y}" y
  if ms.subdomains.length > 0 then
    let idx := subdomainIndex xCoord yCoord zoom ms.subdomains.length
    replaceFirst url "{s}" ((jsArrayGet ms.subdomains idx).getD "undefined")
  else url

/-- Outcome of the upstream `fetch`: a success carries the value of the
response's `content-type` header (absent headers give `none`) and the body
bytes; `httpError` is `res.ok === false` with the status text; and
`networkError` is a thrown exception. -/
inductive FetchOutcome where
  | success (contentTypeHdr : Option String) (body : List Nat)
  | httpError (statusText : String)
  | networkError
deriving DecidableEq, Repr

/-- The query parameters of a `/tiles` request; `none` is an absent
parameter. -/
structure TileRequest where
  source : Option String
  x : Option String
  y : Option String
  z : Option String
deriving DecidableEq, Repr

/-- JavaScript falsiness of an optional string: `undefined` and `""` are
falsy, which is what `!source || !x || !y || !z` tests. -/
def jsFalsyStr : Option String → Bool
  | none => true
  | some s => s == ""

/-- The environment a `/tiles` request runs against: the provider
registry, the object store and the (single-shot) upstream fetch
outcome. -/
structure Env where
  getMapSource : String → Option MapSource
  store : String → StoreReadResult
  fetchResult : FetchOutcome

/-- Which branch of the route handler produced the result. -/
inductive Branch where
  | missingParams
  | invalidCoord
  | sourceNotFound
  | zoomRange
  | cacheHit
  | missSuccess
  | missHttpError
  | missNetworkError
deriving DecidableEq, Repr

/-- A response body: plain text (`c.text`) or image bytes. -/
inductive RespBody where
  | text (s : String)
  | bytes (b : List Nat)
deriving DecidableEq, Repr

/-- Observable outcome of one `/tiles` request: the HTTP response
(status, explicitly-set headers in order, body) plus the side-effect
trace — which store keys were probed, whether an upstream fetch was
attempted and at which URL, and which store writes were attempted. -/
structure HandlerResult where
  branch : Branch
  status : Nat
  headers : List (String × String)
  body : RespBody
  probedKeys : List String
  fetchAttempted : Bool
  fetchedUrl : Option String
  writes : List StorageWrite
deriving DecidableEq, Repr

/-- Model of the route classification of a fetched tile (lines 202–214):
trust a content-type header mentioning jpeg/jpg or png, otherwise fall
back to signature sniffing. -/
def classifyMiss (contentTypeHdr : Option String) (data : List Nat) :
    String :=
  let contentType := contentTypeHdr.getD ""
  if jsIncludes contentType "jpeg" || jsIncludes contentType "jpg" then "jpg"
  else if jsIncludes contentType "png" then "png"
  else detectImageType data

/-- Model of the route from the zoom bound check onward (lines 131–239),
once the request tokens have passed presence and parse validation and the
provider is resolved. -/
def resolveTile (env : Env) (src xs ys zs : String)
    (zoom xCoord yCoord : Int) (ms : MapSource) : HandlerResult :=
  if zoom < 0 ∨ zoom > ms.maxZoom then
    { branch := .zoomRange
      status := 400
      headers := []
      body := .text ("Zoom level out of range. Max zoom: "
        ++ toString ms.maxZoom)
      probedKeys := []
      fetchAttempted := false
      fetchedUrl := none
      writes := [] }
  else
    let cacheKey : TileCacheKey :=
      { x := xs, y := ys, z := zs, mapSource := src }
    let probeKey := generateTileKey cacheKey (some ms.cacheNs) "png"
    match getCachedTile env.store cacheKey (some ms.cacheNs) with
    | some cachedTile =>
      let imageType := detectImageType cachedTile
      { branch := .cacheHit
        status := 200
        headers := [("Content-Type", mimeOf imageType),
          ("Cache-Control", "public, max-age=86400"),
          ("X-Cache", "HIT"),
          ("Content-Disposition", "inline")]
        body := .bytes cachedTile
        probedKeys := [probeKey]
        fetchAttempted := false
        fetchedUrl := none
        writes := [] }
    | none =>
      let url := buildTileUrl ms xs ys zs xCoord yCoord zoom
      match env.fetchResult with
      | .httpError statusText =>
        { branch := .missHttpError
          status := 500
          headers := []
          body := .text ("Failed to fetch tile from source: " ++ statusText)
          probedKeys := [probeKey]
          fetchAttempted := true
          fetchedUrl := some url
          writes := [] }
      | .networkError =>
        { branch := .missNetworkError
          status := 500
          headers := []
          body := .text "Internal server error"
          probedKeys := [probeKey]
          fetchAttempted := true
          fetchedUrl := some url
          writes := [] }
      | .success contentTypeHdr data =>
        let imageType := classifyMiss contentTypeHdr data
        { branch := .missSuccess
          status := 200
          headers := [("Content-Type", mimeOf imageType),
            ("Cache-Control", "public, max-age=86400"),
            ("X-Cache", "MISS"),
            ("Content-Disposition", "inline")]
          body := .bytes data
          probedKeys := [probeKey]
          fetchAttempted := true
          fetchedUrl := some url
          writes := [cacheTileWithType cacheKey data (some ms.cacheNs)
            imageType] }

/-- Model of the `/tiles` route handler (lines 99–240): presence check,
`Number.parseInt` validation, provider lookup, then `resolveTile`. -/
def handleTiles (env : Env) (req : TileRequest) : HandlerResult :=
  if jsFalsyStr req.source || jsFalsyStr req.x
      || jsFalsyStr req.y || jsFalsyStr req.z then
    { branch := .missingParams
      status := 400
      headers := []
      body := .text "Missing required query parameters: source, x, y, z"
      probedKeys := []
      fetchAttempted := false
      fetchedUrl := none
      writes := [] }
  else
    let src := req.source.getD ""
    let xs := req.x.getD ""
    let ys := req.y.getD ""
    let zs := req.z.getD ""
    match jsParseInt zs, jsParseInt xs, jsParseInt ys with
    | some zoom, some xCoord, some yCoord =>
      match env.getMapSource src with
      | none =>
        { branch := .sourceNotFound
          status := 404
          headers := []
          body := .text ("Map source not found: " ++ src)
          probedKeys := []
          fetchAttempted := false
          fetchedUrl := none
          writes := [] }
      | some ms => resolveTile env src xs ys zs zoom xCoord yCoord ms
    | _, _, _ =>
      { branch := .invalidCoord
        status := 400
        headers := []
        body := .text "Invalid coordinate format"
        probedKeys := []
        fetchAttempted := false
        fetchedUrl := none
        writes := [] }

/-- First-match header lookup over the explicitly-set header list. -/
def lookupHeader (hs : List (String × String)) (name : String) :
    Option String :=
  (hs.find? (fun p => p.1 == name)).map (fun p => p.2)

/-! ### Auxiliary lemmas -/

/-- Splitting an equality of lists at the first occurrence of a separator
that occurs in neither left part. -/
theorem sep_split {sep : Char} :
    ∀ {a a' r r' : List Char}, sep ∉ a → sep ∉ a' →
      a ++ sep :: r = a' ++ sep :: r' → a = a' ∧ r = r' := by
  intro a
  induction a with
  | nil =>
    intro a' r r' _ ha' h
    cases a' with
    | nil => simp_all
    | cons b bs =>
      simp only [List.nil_append, List.cons_append, List.cons.injEq] at h
      have : sep ∈ b :: bs := by rw [h.1]; exact List.mem_cons_self b bs
      exact absurd this ha'
  | cons c cs ih =>
    intro a' r r' ha ha' h
    cases a' with
    | nil =>
      simp only [List.cons_append, List.nil_append, List.cons.injEq] at h
      have : sep ∈ c :: cs := by rw [← h.1]; exact List.mem_cons_self c cs
      exact absurd this ha
    | cons b bs =>
      simp only [List.cons_append, List.cons.injEq] at h
      obtain ⟨hcb, h2⟩ := h
      have hacs : sep ∉ cs := fun hm => ha (List.mem_cons_of_mem _ hm)
      have hbs : sep ∉ bs := fun hm => ha' (List.mem_cons_of_mem _ hm)
      obtain ⟨h3, h4⟩ := ih hacs hbs h2
      exact ⟨by rw [hcb, h3], h4⟩

/-- `tilePath` is injective in the three coordinate tokens once the zoom
and column tokens are slash-free (the row token and the extension are
recovered by cancelling the common suffix). -/
theorem tilePath_inj {z x y z' x' y' extension : String}
    (hz : '/' ∉ z.data) (hx : '/' ∉ x.data)
    (hz' : '/' ∉ z'.data) (hx' : '/' ∉ x'.data)
    (h : tilePath z x y extension = tilePath z' x' y' extension) :
    z = z' ∧ x = x' ∧ y = y' := by
  have hd := congrArg String.data h
  simp only [tilePath, String.data_append,
    show ("tiles/" : String).data = ['t', 'i', 'l', 'e', 's', '/'] from rfl,
    show ("/" : String).data = ['/'] from rfl,
    show ("." : String).data = ['.'] from rfl,
    List.append_assoc, List.cons_append, List.nil_append,
    List.cons.injEq, true_and] at hd
  obtain ⟨h1, h2⟩ := sep_split hz hz' hd
  obtain ⟨h3, h4⟩ := sep_split hx hx' h2
  exact ⟨String.ext h1, String.ext h3,
    String.ext (List.append_cancel_right h4)⟩

/-- If `dropWhile p` leaves a non-empty list, its head fails `p`. -/
theorem head_dropWhile_false {p : Char → Bool} :
    ∀ {l : List Char} {c : Char} {r : List Char},
      l.dropWhile p = c :: r → p c = false := by
  intro l
  induction l with
  | nil => intro c r h; simp [List.dropWhile] at h
  | cons a as ih =>
    intro c r h
    by_cases hp : p a
    · rw [List.dropWhile_cons_of_pos hp] at h
      exact ih h
    · rw [List.dropWhile_cons_of_neg hp] at h
      cases h
      simpa using hp

/-- Removing a trailing run leaves a prefix of the original list. -/
theorem dropTrailSlashes_append (m : List Char) :
    ∃ t, dropTrailSlashes m ++ t = m := by
  refine ⟨(m.reverse.takeWhile (· == '/')).reverse, ?_⟩
  unfold dropTrailSlashes
  rw [← List.reverse_append, List.takeWhile_append_dropWhile,
    List.reverse_reverse]

/-- The normalized namespace never starts with a slash. -/
theorem stripSlashes_head_ne_slash (s : String) {c : Char} {r : List Char}
    (h : (stripSlashes s).data = c :: r) : c ≠ '/' := by
  unfold stripSlashes at h
  have h' : dropTrailSlashes (dropLeadSlashes s.data) = c :: r := h
  obtain ⟨t, ht⟩ := dropTrailSlashes_append (dropLeadSlashes s.data)
  rw [h'] at ht
  unfold dropLeadSlashes at ht
  have : s.data.dropWhile (· == '/') = c :: (r ++ t) := by
    rw [← ht]; simp
  have hc := head_dropWhile_false this
  simpa using hc

/-! ### Claim theorems -/

/-- C2: the format classifier is total on byte sequences — for every input
(including the empty one) it returns "jpg" or "png" and never fails; it
returns "jpg" for every input of length ≥ 3 starting FF D8 FF, "png" for
every input of length ≥ 8 starting with the PNG signature, and "png" for
every input matching neither signature. -/
theorem detectImageType_total_and_signatures (buffer : List Nat) :
    (detectImageType buffer = "jpg" ∨ detectImageType buffer = "png")
    ∧ (buffer.length ≥ 3 ∧ buffer.getD 0 0 = 0xFF ∧ buffer.getD 1 0 = 0xD8
        ∧ buffer.getD 2 0 = 0xFF → detectImageType buffer = "jpg")
    ∧ (buffer.length ≥ 8 ∧ buffer.getD 0 0 = 0x89 ∧ buffer.getD 1 0 = 0x50
        ∧ buffer.getD 2 0 = 0x4E ∧ buffer.getD 3 0 = 0x47
        ∧ buffer.getD 4 0 = 0x0D ∧ buffer.getD 5 0 = 0x0A
        ∧ buffer.getD 6 0 = 0x1A ∧ buffer.getD 7 0 = 0x0A →
        detectImageType buffer = "png")
    ∧ (¬(buffer.length ≥ 3 ∧ buffer.getD 0 0 = 0xFF ∧ buffer.getD 1 0 = 0xD8
          ∧ buffer.getD 2 0 = 0xFF)
        ∧ ¬(buffer.length ≥ 8 ∧ buffer.getD 0 0 = 0x89
          ∧ buffer.getD 1 0 = 0x50 ∧ buffer.getD 2 0 = 0x4E
          ∧ buffer.getD 3 0 = 0x47 ∧ buffer.getD 4 0 = 0x0D
          ∧ buffer.getD 5 0 = 0x0A ∧ buffer.getD 6 0 = 0x1A
          ∧ buffer.getD 7 0 = 0x0A) →
        detectImageType buffer = "png") := by
  refine ⟨?_, ?_, ?_, ?_⟩ <;> unfold detectImageType <;>
    split_ifs with h1 h2 <;> simp_all

/-- Witness for C2: the theorem applied at a JPEG-signature buffer, a
PNG-signature buffer and the empty buffer. -/
theorem detectImageType_total_and_signatures_witness :
    detectImageType [0xFF, 0xD8, 0xFF] = "jpg"
    ∧ detectImageType [0x89, 0x50, 0x4E, 0x47, 0x0D, 0x0A, 0x1A, 0x0A]
      = "png"
    ∧ detectImageType [] = "png" :=
  ⟨(detectImageType_total_and_signatures _).2.1 (by decide),
   (detectImageType_total_and_signatures _).2.2.1 (by decide),
   (detectImageType_total_and_signatures _).2.2.2 (by decide)⟩

/-- C3 counterexample: two distinct coordinate-token triples that the
resolver accepts (each token parses under `Number.parseInt(_, 10)`)
collide on the same storage key, because a token may itself contain a
slash. The claimed injectivity over all resolver-passable tokens is
therefore false. -/
theorem generateTileKey_collision :
    generateTileKey ⟨"3", "4", "1/2", "osm"⟩ none "png"
      = generateTileKey ⟨"2/3", "4", "1", "osm"⟩ none "png"
    ∧ (("1/2", "3", "4") : String × String × String) ≠ ("1", "2/3", "4")
    ∧ jsParseInt "1/2" = some 1 ∧ jsParseInt "2/3" = some 2
    ∧ jsParseInt "3" = some 3 ∧ jsParseInt "4" = some 4 := by
  refine ⟨by decide, by decide, by decide, by decide, by decide, by decide⟩

/-- C3 (amended): for a fixed namespace and extension, key derivation is
deterministic and injective on coordinate-token triples whose tokens
contain no `'/'` character — equal inputs give equal keys and distinct
such triples give distinct keys. -/
theorem generateTileKey_inj_no_slash (cacheNs : Option String)
    (mapSource extension : String) (z x y z' x' y' : String)
    (hz : '/' ∉ z.data) (hx : '/' ∉ x.data) (hy : '/' ∉ y.data)
    (hz' : '/' ∉ z'.data) (hx' : '/' ∉ x'.data) (hy' : '/' ∉ y'.data) :
    generateTileKey ⟨x, y, z, mapSource⟩ cacheNs extension
      = generateTileKey ⟨x', y', z', mapSource⟩ cacheNs extension
    ↔ (z = z' ∧ x = x' ∧ y = y') := by
  constructor
  · intro h
    unfold generateTileKey at h
    simp only at h
    split_ifs at h
    · exact tilePath_inj hz hx hz' hx' h
    · have hd := congrArg String.data h
      simp only [String.data_append,
        show ("/" : String).data = ['/'] from rfl,
        List.append_assoc, List.cons_append, List.nil_append] at hd
      have hd2 := List.append_cancel_left hd
      simp only [List.cons.injEq, true_and] at hd2
      exact tilePath_inj hz hx hz' hx' (String.ext hd2)
  · rintro ⟨rfl, rfl, rfl⟩
    rfl

/-- Witness for C3's amended theorem: at slash-free tokens, distinct rows
give distinct keys. -/
theorem generateTileKey_inj_no_slash_witness :
    generateTileKey ⟨"1", "2", "3", "osm"⟩ none "png"
      ≠ generateTileKey ⟨"1", "5", "3", "osm"⟩ none "png" := by
  intro h
  have h2 := (generateTileKey_inj_no_slash none "osm" "png" "3" "1" "2"
    "3" "1" "5" (by decide) (by decide) (by decide) (by decide) (by decide)
    (by decide)).mp h
  exact absurd h2.2.2 (by decide)

/-- Once the four parameters are present and non-empty, all three
coordinate tokens parse, and the provider resolves, the handler reduces to
the post-validation pipeline `resolveTile`. -/
theorem handleTiles_reach (env : Env) (src xs ys zs : String)
    (ms : MapSource) (zoom xCoord yCoord : Int)
    (hs : src ≠ "") (hx : xs ≠ "") (hy : ys ≠ "") (hz : zs ≠ "")
    (hpz : jsParseInt zs = some zoom) (hpx : jsParseInt xs = some xCoord)
    (hpy : jsParseInt ys = some yCoord)
    (hms : env.getMapSource src = some ms) :
    handleTiles env ⟨some src, some xs, some ys, some zs⟩
      = resolveTile env src xs ys zs zoom xCoord yCoord ms := by
  unfold handleTiles
  simp only [jsFalsyStr, beq_iff_eq, hs, hx, hy, hz, Bool.or_self,
    Option.getD_some, hpz, hpx, hpy, hms]
  simp [hs, hx, hy, hz]

/-- Past the zoom bound check the pipeline probes the store exactly once,
under the PNG-extensioned key, and any attempted fetch uses the templated
URL built from the raw tokens. -/
theorem resolveTile_probe (env : Env) (src xs ys zs : String)
    (zoom xCoord yCoord : Int) (ms : MapSource)
    (hzr : ¬(zoom < 0 ∨ zoom > ms.maxZoom)) :
    (resolveTile env src xs ys zs zoom xCoord yCoord ms).probedKeys
      = [generateTileKey ⟨xs, ys, zs, src⟩ (some ms.cacheNs) "png"]
    ∧ ((resolveTile env src xs ys zs zoom xCoord yCoord ms).fetchAttempted
        = true →
      (resolveTile env src xs ys zs zoom xCoord yCoord ms).fetchedUrl
        = some (buildTileUrl ms xs ys zs xCoord yCoord zoom)) := by
  unfold resolveTile
  rw [if_neg hzr]
  cases hgc : getCachedTile env.store ⟨xs, ys, zs, src⟩ (some ms.cacheNs) with
  | some d => simp [hgc]
  | none => cases env.fetchResult <;> simp [hgc]

/-- C1: every request that reaches the cache-lookup step probes the cache
exactly once, under the key derived with extension "png" regardless of the
provider's tile format; on a hit the Content-Type header comes from
sniffing the stored bytes — in particular bytes with the JPEG signature
are served as image/jpeg even though they were found under the .png
key. -/
theorem cache_probe_png_and_hit_sniff (env : Env) (src xs ys zs : String)
    (ms : MapSource) (zoom xCoord yCoord : Int)
    (hs : src ≠ "") (hx : xs ≠ "") (hy : ys ≠ "") (hz : zs ≠ "")
    (hpz : jsParseInt zs = some zoom) (hpx : jsParseInt xs = some xCoord)
    (hpy : jsParseInt ys = some yCoord)
    (hms : env.getMapSource src = some ms)
    (hzr : ¬(zoom < 0 ∨ zoom > ms.maxZoom)) :
    (handleTiles env ⟨some src, some xs, some ys, some zs⟩).probedKeys
      = [generateTileKey ⟨xs, ys, zs, src⟩ (some ms.cacheNs) "png"]
    ∧ (∀ d, env.store (generateTileKey ⟨xs, ys, zs, src⟩ (some ms.cacheNs)
          "png") = .found d →
        (handleTiles env ⟨some src, some xs, some ys, some zs⟩).branch
          = .cacheHit
        ∧ (handleTiles env ⟨some src, some xs, some ys, some zs⟩).status
          = 200
        ∧ lookupHeader
            (handleTiles env ⟨some src, some xs, some ys, some zs⟩).headers
            "Content-Type" = some (mimeOf (detectImageType d))
        ∧ (d.length ≥ 3 ∧ d.getD 0 0 = 0xFF ∧ d.getD 1 0 = 0xD8
            ∧ d.getD 2 0 = 0xFF →
          lookupHeader
            (handleTiles env ⟨some src, some xs, some ys, some zs⟩).headers
            "Content-Type" = some "image/jpeg")) := by
  rw [handleTiles_reach env src xs ys zs ms zoom xCoord yCoord hs hx hy hz
    hpz hpx hpy hms]
  refine ⟨(resolveTile_probe env src xs ys zs zoom xCoord yCoord ms hzr).1,
    ?_⟩
  intro d hd
  have hgc : getCachedTile env.store ⟨xs, ys, zs, src⟩ (some ms.cacheNs)
      = some d := by
    unfold getCachedTile
    rw [hd]
  unfold resolveTile
  rw [if_neg hzr]
  simp only [hgc]
  refine ⟨trivial, trivial, rfl, ?_⟩
  intro hsig
  have hjpg : detectImageType d = "jpg" := by
    unfold detectImageType
    rw [if_pos hsig]
  rw [hjpg]
  exact rfl

/-- The content-type ternary only ever produces the two image MIME
types. -/
theorem mimeOf_cases (t : String) :
    mimeOf t = "image/png" ∨ mimeOf t = "image/jpeg" := by
  unfold mimeOf
  split_ifs <;> simp

/-- C7: a request whose parsed zoom is negative or exceeds the resolved
provider's maxZoom gets a 400 whose body names the provider's maxZoom,
with no cache probe, no upstream fetch and no storage write; a zoom within
bounds passes the check and the pipeline proceeds to the cache probe. -/
theorem zoom_bound_check (env : Env) (src xs ys zs : String)
    (ms : MapSource) (zoom xCoord yCoord : Int)
    (hs : src ≠ "") (hx : xs ≠ "") (hy : ys ≠ "") (hz : zs ≠ "")
    (hpz : jsParseInt zs = some zoom) (hpx : jsParseInt xs = some xCoord)
    (hpy : jsParseInt ys = some yCoord)
    (hms : env.getMapSource src = some ms) :
    ((zoom < 0 ∨ zoom > ms.maxZoom) →
      (handleTiles env ⟨some src, some xs, some ys, some zs⟩).status = 400
      ∧ (handleTiles env ⟨some src, some xs, some ys, some zs⟩).body
        = .text ("Zoom level out of range. Max zoom: " ++ toString ms.maxZoom)
      ∧ (handleTiles env ⟨some src, some xs, some ys, some zs⟩).probedKeys
        = []
      ∧ (handleTiles env ⟨some src, some xs, some ys, some zs⟩).fetchAttempted
        = false
      ∧ (handleTiles env ⟨some src, some xs, some ys, some zs⟩).writes = [])
    ∧ (0 ≤ zoom ∧ zoom ≤ ms.maxZoom →
      (handleTiles env ⟨some src, some xs, some ys, some zs⟩).probedKeys
        = [generateTileKey ⟨xs, ys, zs, src⟩ (some ms.cacheNs) "png"]) := by
  rw [handleTiles_reach env src xs ys zs ms zoom xCoord yCoord hs hx hy hz
    hpz hpx hpy hms]
  constructor
  · intro h
    unfold resolveTile
    rw [if_pos h]
    exact ⟨rfl, rfl, rfl, rfl, rfl⟩
  · intro h
    exact (resolveTile_probe env src xs ys zs zoom xCoord yCoord ms
      (by omega)).1

/-- C6: both successful paths respond 200 with the exact header set —
Content-Type equal to image/png or image/jpeg and matching the classified
format (signature sniffing on the hit path, advertised content type with
signature fallback on the miss path), Cache-Control "public,
max-age=86400", X-Cache HIT/MISS respectively, and Content-Disposition
inline. -/
theorem success_response_headers (env : Env) (src xs ys zs : String)
    (ms : MapSource) (zoom xCoord yCoord : Int)
    (hs : src ≠ "") (hx : xs ≠ "") (hy : ys ≠ "") (hz : zs ≠ "")
    (hpz : jsParseInt zs = some zoom) (hpx : jsParseInt xs = some xCoord)
    (hpy : jsParseInt ys = some yCoord)
    (hms : env.getMapSource src = some ms)
    (hzr : ¬(zoom < 0 ∨ zoom > ms.maxZoom)) :
    (∀ d, getCachedTile env.store ⟨xs, ys, zs, src⟩ (some ms.cacheNs)
        = some d →
      (handleTiles env ⟨some src, some xs, some ys, some zs⟩).status = 200
      ∧ (handleTiles env ⟨some src, some xs, some ys, some zs⟩).headers
        = [("Content-Type", mimeOf (detectImageType d)),
           ("Cache-Control", "public, max-age=86400"),
           ("X-Cache", "HIT"),
           ("Content-Disposition", "inline")]
      ∧ (lookupHeader
          (handleTiles env ⟨some src, some xs, some ys, some zs⟩).headers
          "Content-Type" = some "image/png"
        ∨ lookupHeader
          (handleTiles env ⟨some src, some xs, some ys, some zs⟩).headers
          "Content-Type" = some "image/jpeg"))
    ∧ (∀ ctH d, getCachedTile env.store ⟨xs, ys, zs, src⟩ (some ms.cacheNs)
        = none →
      env.fetchResult = .success ctH d →
      (handleTiles env ⟨some src, some xs, some ys, some zs⟩).status = 200
      ∧ (handleTiles env ⟨some src, some xs, some ys, some zs⟩).headers
        = [("Content-Type", mimeOf (classifyMiss ctH d)),
           ("Cache-Control", "public, max-age=86400"),
           ("X-Cache", "MISS"),
           ("Content-Disposition", "inline")]
      ∧ (lookupHeader
          (handleTiles env ⟨some src, some xs, some ys, some zs⟩).headers
          "Content-Type" = some "image/png"
        ∨ lookupHeader
          (handleTiles env ⟨some src, some xs, some ys, some zs⟩).headers
          "Content-Type" = some "image/jpeg")) := by
  rw [handleTiles_reach env src xs ys zs ms zoom xCoord yCoord hs hx hy hz
    hpz hpx hpy hms]
  constructor
  · intro d hgc
    unfold resolveTile
    rw [if_neg hzr]
    simp only [hgc]
    refine ⟨trivial, trivial, ?_⟩
    rcases mimeOf_cases (detectImageType d) with h | h
    · left
      show some (mimeOf (detectImageType d)) = some "image/png"
      rw [h]
    · right
      show some (mimeOf (detectImageType d)) = some "image/jpeg"
      rw [h]
  · intro ctH d hgc hf
    unfold resolveTile
    rw [if_neg hzr]
    simp only [hgc, hf]
    refine ⟨trivial, trivial, ?_⟩
    rcases mimeOf_cases (classifyMiss ctH d) with h | h
    · left
      show some (mimeOf (classifyMiss ctH d)) = some "image/png"
      rw [h]
    · right
      show some (mimeOf (classifyMiss ctH d)) = some "image/jpeg"
      rw [h]

/-- C5: a non-success upstream HTTP status yields a 500 whose body
carries the upstream status text, a network-level fetch failure yields a
500 with the generic body "Internal server error", and neither failure
path attempts any storage write. -/
theorem upstream_failure_responses (env : Env) (src xs ys zs : String)
    (ms : MapSource) (zoom xCoord yCoord : Int)
    (hs : src ≠ "") (hx : xs ≠ "") (hy : ys ≠ "") (hz : zs ≠ "")
    (hpz : jsParseInt zs = some zoom) (hpx : jsParseInt xs = some xCoord)
    (hpy : jsParseInt ys = some yCoord)
    (hms : env.getMapSource src = some ms)
    (hzr : ¬(zoom < 0 ∨ zoom > ms.maxZoom))
    (hmiss : getCachedTile env.store ⟨xs, ys, zs, src⟩ (some ms.cacheNs)
      = none) :
    (∀ st, env.fetchResult = .httpError st →
      (handleTiles env ⟨some src, some xs, some ys, some zs⟩).status = 500
      ∧ (handleTiles env ⟨some src, some xs, some ys, some zs⟩).body
        = .text ("Failed to fetch tile from source: " ++ st)
      ∧ (handleTiles env ⟨some src, some xs, some ys, some zs⟩).writes = [])
    ∧ (env.fetchResult = .networkError →
      (handleTiles env ⟨some src, some xs, some ys, some zs⟩).status = 500
      ∧ (handleTiles env ⟨some src, some xs, some ys, some zs⟩).body
        = .text "Internal server error"
      ∧ (handleTiles env ⟨some src, some xs, some ys, some zs⟩).writes
        = []) := by
  rw [handleTiles_reach env src xs ys zs ms zoom xCoord yCoord hs hx hy hz
    hpz hpx hpy hms]
  constructor
  · intro st hf
    unfold resolveTile
    rw [if_neg hzr]
    simp only [hmiss, hf]
    exact ⟨trivial, trivial, trivial⟩
  · intro hf
    unfold resolveTile
    rw [if_neg hzr]
    simp only [hmiss, hf]
    exact ⟨trivial, trivial, trivial⟩

/-- Pointwise repair of a store: every erroring key behaves as an absent
one. -/
def errToAbsent (store : String → StoreReadResult) :
    String → StoreReadResult :=
  fun k =>
    match store k with
    | .error => .absent
    | r => r

/-- The cache reader cannot distinguish an erroring key from an absent
one. -/
theorem getCachedTile_errToAbsent (store : String → StoreReadResult)
    (key : TileCacheKey) (cacheNs : Option String) :
    getCachedTile (errToAbsent store) key cacheNs
      = getCachedTile store key cacheNs := by
  unfold getCachedTile errToAbsent
  cases store (generateTileKey key cacheNs "png") <;> rfl

/-- The post-validation pipeline is unchanged when storage errors are
replaced by absences. -/
theorem resolveTile_errToAbsent (env : Env) (src xs ys zs : String)
    (zoom xCoord yCoord : Int) (ms : MapSource) :
    resolveTile { env with store := errToAbsent env.store } src xs ys zs
      zoom xCoord yCoord ms
      = resolveTile env src xs ys zs zoom xCoord yCoord ms := by
  unfold resolveTile
  simp only [getCachedTile_errToAbsent]

/-- C8: storage errors never propagate — an erroring existence check or
read makes `getCachedTile` return `null` and `isTileCached` return
`false`, and the whole request behaves exactly as if the erroring keys
were cache misses, so a cache-read failure can never by itself turn a
request into an error response. -/
theorem storage_errors_degrade_to_miss :
    (∀ (store : String → StoreReadResult) (key : TileCacheKey)
        (cacheNs : Option String),
      store (generateTileKey key cacheNs "png") = .error →
      getCachedTile store key cacheNs = none
      ∧ isTileCached store key cacheNs = false)
    ∧ (∀ (env : Env) (req : TileRequest),
      handleTiles { env with store := errToAbsent env.store } req
        = handleTiles env req) := by
  constructor
  · intro store key cacheNs h
    unfold getCachedTile isTileCached
    rw [h]
    exact ⟨rfl, rfl⟩
  · intro env req
    unfold handleTiles
    simp only [resolveTile_errToAbsent]

/-- Witness for C8: a store that always throws behaves as an absent
store. -/
theorem storage_errors_degrade_to_miss_witness :
    getCachedTile (fun _ => .error) ⟨"1", "2", "3", "osm"⟩ none = none
    ∧ isTileCached (fun _ => .error) ⟨"1", "2", "3", "osm"⟩ none = false :=
  storage_errors_degrade_to_miss.1 (fun _ => .error) ⟨"1", "2", "3", "osm"⟩
    none rfl

/-- C4 counterexample: JavaScript `%` truncates toward zero, so for
column -5, row 0, zoom 0 and a three-element subdomain list the selected
index is -2 — not a valid index — and the resolver substitutes the string
"undefined" into the upstream URL. The claim that the selected index is
always valid (in particular for negative column or row) is therefore
false. -/
theorem subdomain_negative_index :
    subdomainIndex (-5) 0 0 3 = -2
    ∧ jsArrayGet ["a", "b", "c"] (subdomainIndex (-5) 0 0 3) = none
    ∧ jsParseInt "-5" = some (-5)
    ∧ (handleTiles
        { getMapSource := fun s =>
            if s = "osm" then
              some { urlTemplate := "https://{s}.example.com/{z}/{x}/{y}.png"
                     maxZoom := 19
                     cacheNs := "osm"
                     subdomains := ["a", "b", "c"] }
            else none
          store := fun _ => .absent
          fetchResult := .networkError }
        ⟨some "osm", some "-5", some "0", some "0"⟩).fetchedUrl
      = some "https://undefined.example.com/0/-5/0.png" := by
  refine ⟨by decide, by decide, by decide, by decide⟩

/-- C4 (amended): the subdomain index is the JavaScript truncated
remainder of (column + row + zoom) by the list length; whenever
column + row + zoom is non-negative it agrees with the mathematical mod,
is a valid index into the list, and selects an actual element — and the
selection is a pure function of (column, row, zoom), hence
deterministic. -/
theorem subdomainIndex_valid_of_nonneg (xCoord yCoord zoom : Int)
    (subs : List String) (hn : 0 < subs.length)
    (hsum : 0 ≤ xCoord + yCoord + zoom) :
    0 ≤ subdomainIndex xCoord yCoord zoom subs.length
    ∧ subdomainIndex xCoord yCoord zoom subs.length < subs.length
    ∧ subdomainIndex xCoord yCoord zoom subs.length
      = (xCoord + yCoord + zoom) % (subs.length : Int)
    ∧ ∃ el, jsArrayGet subs (subdomainIndex xCoord yCoord zoom subs.length)
      = some el := by
  have h0 : (0 : Int) < (subs.length : Int) := by exact_mod_cast hn
  have h1 : 0 ≤ subdomainIndex xCoord yCoord zoom subs.length :=
    Int.tmod_nonneg _ hsum
  have h2 : subdomainIndex xCoord yCoord zoom subs.length
      < (subs.length : Int) := Int.tmod_lt_of_pos _ h0
  refine ⟨h1, h2, Int.tmod_eq_emod hsum (le_of_lt h0), ?_⟩
  have hlt : (subdomainIndex xCoord yCoord zoom subs.length).toNat
      < subs.length := by omega
  unfold jsArrayGet
  rw [dif_pos ⟨h1, hlt⟩]
  exact ⟨_, rfl⟩

/-- Witness for C4's amended theorem at (1, 2, 3) with a two-element
list. -/
theorem subdomainIndex_valid_of_nonneg_witness :
    0 ≤ subdomainIndex 1 2 3 2
    ∧ subdomainIndex 1 2 3 2 < 2
    ∧ subdomainIndex 1 2 3 2 = (1 + 2 + 3) % (2 : Int)
    ∧ ∃ el, jsArrayGet ["a", "b"] (subdomainIndex 1 2 3 2) = some el := by
  have h := subdomainIndex_valid_of_nonneg 1 2 3 ["a", "b"] (by decide)
    (by decide)
  exact h

/-- C9: the derived key is exactly
`{cleanNs}/tiles/{zoom}/{column}/{row}.{extension}` where `cleanNs` is the
effective namespace with leading and trailing slashes stripped; when the
stripped namespace is empty the key is `tiles/...` with no namespace
prefix, and in every case the key never starts with a separator. -/
theorem generateTileKey_format (cacheNs : Option String)
    (mapSource x y z extension : String) :
    generateTileKey ⟨x, y, z, mapSource⟩ cacheNs extension
      = (if stripSlashes (effectiveNs cacheNs mapSource) = "" then ""
         else stripSlashes (effectiveNs cacheNs mapSource) ++ "/")
        ++ ("tiles/" ++ z ++ "/" ++ x ++ "/" ++ y ++ "." ++ extension)
    ∧ (∀ c r, (generateTileKey ⟨x, y, z, mapSource⟩ cacheNs
        extension).data = c :: r → c ≠ '/') := by
  constructor
  · simp only [generateTileKey]
    split_ifs with h
    · apply String.ext
      simp [tilePath]
    · apply String.ext
      simp [tilePath]
  · intro c r hdata
    simp only [generateTileKey] at hdata
    split_ifs at hdata with h
    · have ht : (tilePath z x y extension).data
          = 't' :: ("iles/" ++ z ++ "/" ++ x ++ "/" ++ y ++ "."
            ++ extension).data := rfl
      rw [ht] at hdata
      injection hdata with h1 _
      subst h1
      decide
    · cases hcd : (stripSlashes (effectiveNs cacheNs mapSource)).data with
      | nil => exact absurd (String.ext hcd) h
      | cons c0 r0 =>
        have hc0 := stripSlashes_head_ne_slash _ hcd
        have hd2 : (stripSlashes (effectiveNs cacheNs mapSource) ++ "/"
            ++ tilePath z x y extension).data
            = c0 :: (r0 ++ ('/' :: (tilePath z x y extension).data)) := by
          simp [String.data_append, hcd]
        rw [hd2] at hdata
        injection hdata with h1 _
        subst h1
        exact hc0

/-- Witness for C1: a JPEG-signature object cached under the PNG key is
served with Content-Type image/jpeg. -/
theorem cache_probe_png_and_hit_sniff_witness :
    lookupHeader ((handleTiles
      { getMapSource := fun s =>
          if s = "osm" then
            some { urlTemplate := "https://tile.example.com/{z}/{x}/{y}.png"
                   maxZoom := 19
                   cacheNs := "osm"
                   subdomains := [] }
          else none
        store := fun k =>
          if k = "osm/tiles/3/1/2.png" then .found [0xFF, 0xD8, 0xFF]
          else .absent
        fetchResult := .networkError }
      ⟨some "osm", some "1", some "2", some "3"⟩).headers) "Content-Type"
      = some "image/jpeg" := by
  have h := cache_probe_png_and_hit_sniff
    { getMapSource := fun s =>
        if s = "osm" then
          some { urlTemplate := "https://tile.example.com/{z}/{x}/{y}.png"
                 maxZoom := 19
                 cacheNs := "osm"
                 subdomains := [] }
        else none
      store := fun k =>
        if k = "osm/tiles/3/1/2.png" then .found [0xFF, 0xD8, 0xFF]
        else .absent
      fetchResult := .networkError }
    "osm" "1" "2" "3"
    { urlTemplate := "https://tile.example.com/{z}/{x}/{y}.png"
      maxZoom := 19
      cacheNs := "osm"
      subdomains := [] }
    3 1 2 (by decide) (by decide) (by decide) (by decide) (by decide)
    (by decide) (by decide) (by decide) (by decide)
  exact ((h.2 [0xFF, 0xD8, 0xFF] (by decide)).2.2.2 (by decide))

/-- Witness for C7: z=999 against maxZoom 19 gives a 400 naming 19. -/
theorem zoom_bound_check_witness :
    (handleTiles
      { getMapSource := fun s =>
          if s = "osm" then
            some { urlTemplate := "https://tile.example.com/{z}/{x}/{y}.png"
                   maxZoom := 19
                   cacheNs := "osm"
                   subdomains := [] }
          else none
        store := fun _ => .absent
        fetchResult := .networkError }
      ⟨some "osm", some "1", some "2", some "999"⟩).status = 400
    ∧ (handleTiles
      { getMapSource := fun s =>
          if s = "osm" then
            some { urlTemplate := "https://tile.example.com/{z}/{x}/{y}.png"
                   maxZoom := 19
                   cacheNs := "osm"
                   subdomains := [] }
          else none
        store := fun _ => .absent
        fetchResult := .networkError }
      ⟨some "osm", some "1", some "2", some "999"⟩).body
      = .text "Zoom level out of range. Max zoom: 19" := by
  have h := zoom_bound_check
    { getMapSource := fun s =>
        if s = "osm" then
          some { urlTemplate := "https://tile.example.com/{z}/{x}/{y}.png"
                 maxZoom := 19
                 cacheNs := "osm"
                 subdomains := [] }
        else none
      store := fun _ => .absent
      fetchResult := .networkError }
    "osm" "1" "2" "999"
    { urlTemplate := "https://tile.example.com/{z}/{x}/{y}.png"
      maxZoom := 19
      cacheNs := "osm"
      subdomains := [] }
    999 1 2 (by decide) (by decide) (by decide) (by decide) (by decide)
    (by decide) (by decide) (by decide)
  have h2 := h.1 (by decide)
  exact ⟨h2.1, h2.2.1⟩

/-- Witness for C6: a cache miss fetching PNG-signature bytes responds
200 with the full header set. -/
theorem success_response_headers_witness :
    (handleTiles
      { getMapSource := fun s =>
          if s = "osm" then
            some { urlTemplate := "https://tile.example.com/{z}/{x}/{y}.png"
                   maxZoom := 19
                   cacheNs := "osm"
                   subdomains := [] }
          else none
        store := fun _ => .absent
        fetchResult := .success none
          [0x89, 0x50, 0x4E, 0x47, 0x0D, 0x0A, 0x1A, 0x0A] }
      ⟨some "osm", some "1", some "2", some "3"⟩).status = 200
    ∧ (handleTiles
      { getMapSource := fun s =>
          if s = "osm" then
            some { urlTemplate := "https://tile.example.com/{z}/{x}/{y}.png"
                   maxZoom := 19
                   cacheNs := "osm"
                   subdomains := [] }
          else none
        store := fun _ => .absent
        fetchResult := .success none
          [0x89, 0x50, 0x4E, 0x47, 0x0D, 0x0A, 0x1A, 0x0A] }
      ⟨some "osm", some "1", some "2", some "3"⟩).headers
      = [("Content-Type", "image/png"),
         ("Cache-Control", "public, max-age=86400"),
         ("X-Cache", "MISS"),
         ("Content-Disposition", "inline")] := by
  have h := success_response_headers
    { getMapSource := fun s =>
        if s = "osm" then
          some { urlTemplate := "https://tile.example.com/{z}/{x}/{y}.png"
                 maxZoom := 19
                 cacheNs := "osm"
                 subdomains := [] }
        else none
      store := fun _ => .absent
      fetchResult := .success none
        [0x89, 0x50, 0x4E, 0x47, 0x0D, 0x0A, 0x1A, 0x0A] }
    "osm" "1" "2" "3"
    { urlTemplate := "https://tile.example.com/{z}/{x}/{y}.png"
      maxZoom := 19
      cacheNs := "osm"
      subdomains := [] }
    3 1 2 (by decide) (by decide) (by decide) (by decide) (by decide)
    (by decide) (by decide) (by decide) (by decide)
  have h2 := h.2 none [0x89, 0x50, 0x4E, 0x47, 0x0D, 0x0A, 0x1A, 0x0A]
    (by decide) rfl
  exact ⟨h2.1, h2.2.1⟩

/-- Witness for C5: an upstream 503 ("Service Unavailable") yields a 500
carrying the status text and no storage write. -/
theorem upstream_failure_responses_witness :
    (handleTiles
      { getMapSource := fun s =>
          if s = "osm" then
            some { urlTemplate := "https://tile.example.com/{z}/{x}/{y}.png"
                   maxZoom := 19
                   cacheNs := "osm"
                   subdomains := [] }
          else none
        store := fun _ => .absent
        fetchResult := .httpError "Service Unavailable" }
      ⟨some "osm", some "1", some "2", some "3"⟩).status = 500
    ∧ (handleTiles
      { getMapSource := fun s =>
          if s = "osm" then
            some { urlTemplate := "https://tile.example.com/{z}/{x}/{y}.png"
                   maxZoom := 19
                   cacheNs := "osm"
                   subdomains := [] }
          else none
        store := fun _ => .absent
        fetchResult := .httpError "Service Unavailable" }
      ⟨some "osm", some "1", some "2", some "3"⟩).body
      = .text "Failed to fetch tile from source: Service Unavailable"
    ∧ (handleTiles
      { getMapSource := fun s =>
          if s = "osm" then
            some { urlTemplate := "https://tile.example.com/{z}/{x}/{y}.png"
                   maxZoom := 19
                   cacheNs := "osm"
                   subdomains := [] }
          else none
        store := fun _ => .absent
        fetchResult := .httpError "Service Unavailable" }
      ⟨some "osm", some "1", some "2", some "3"⟩).writes = [] := by
  have h := upstream_failure_responses
    { getMapSource := fun s =>
        if s = "osm" then
          some { urlTemplate := "https://tile.example.com/{z}/{x}/{y}.png"
                 maxZoom := 19
                 cacheNs := "osm"
                 subdomains := [] }
        else none
      store := fun _ => .absent
      fetchResult := .httpError "Service Unavailable" }
    "osm" "1" "2" "3"
    { urlTemplate := "https://tile.example.com/{z}/{x}/{y}.png"
      maxZoom := 19
      cacheNs := "osm"
      subdomains := [] }
    3 1 2 (by decide) (by decide) (by decide) (by decide) (by decide)
    (by decide) (by decide) (by decide) (by decide) (by decide)
  exact h.1 "Service Unavailable" rfl

/-- Witness for C9 at a slash-wrapped namespace override. -/
theorem generateTileKey_format_witness :
    generateTileKey ⟨"1", "2", "3", "osm"⟩ (some "/cache/") "png"
      = (if stripSlashes (effectiveNs (some "/cache/") "osm") = "" then ""
         else stripSlashes (effectiveNs (some "/cache/") "osm") ++ "/")
        ++ ("tiles/" ++ "3" ++ "/" ++ "1" ++ "/" ++ "2" ++ "." ++ "png")
    ∧ 'c' ≠ '/' :=
  ⟨(generateTileKey_format (some "/cache/") "osm" "1" "2" "3" "png").1,
   (generateTileKey_format (some "/cache/") "osm" "1" "2" "3" "png").2
     'c' "ache/tiles/3/1/2.png".data rfl⟩
